import Mathlib

/-
Verification of the bleve experiments/embeddings query-DSL compiler.

The data model follows `experiments/embeddings/query/types.go`, and the
compiler `BuildBleveQuery` / options applier `ApplySearchOptions` follow
`experiments/embeddings/query` (the file defining `BuildBleveQuery`).

Modelling conventions:
  * Go `float64` / `float32` values are only stored and compared with 0 by
    this code, so they are modelled as `Rat` (exact for every literal that
    appears); Go `int` is modelled as `Int`.
  * A nil-able Go field (`*T`, `[]T` compared against nil, or an omitted
    string) is an `Option`; the Go runtime panic produced by dereferencing
    a nil pointer is the `Outcome.derefNil` result.
  * The embedding client (`embeddings.Client.GenerateEmbedding`) performs
    network I/O; the compiler is parameterised by a function
    `embed : String → Except String (List Rat)` and the list of texts it
    was called with is returned alongside the result, so call counts and
    call order are observable.
  * `time.Parse time.RFC3339` is Go standard library code; the compiler is
    parameterised by `parse : String → Option Int` (`some` = the string is
    a valid RFC-3339 timestamp, abstracted to its instant).
-/

/-! ## Query DSL data model (query/types.go) -/

/-- Type `MatchQuery` of types.go: a full-text search clause. -/
structure MatchQuery where
  Field : String
  Value : String
  Boost : Rat := 0
  Operator : String := ""
  Fuzziness : Int := 0
  PrefixLength : Int := 0
deriving DecidableEq

/-- Type `MatchPhraseQuery` of types.go. -/
structure MatchPhraseQuery where
  Field : String
  Value : String
  Boost : Rat := 0
  Slop : Int := 0
deriving DecidableEq

/-- Type `VectorQuery` of types.go; `Vector = none` models a nil Go slice. -/
structure VectorQuery where
  Field : String
  Text : String := ""
  Vector : Option (List Rat) := none
  Model : String := ""
  K : Int := 0
  Boost : Rat := 0
deriving DecidableEq

/-- Type `TermQuery` of types.go. -/
structure TermQuery where
  Field : String
  Value : String
  Boost : Rat := 0
deriving DecidableEq

/-- Type `QueryStringQuery` of types.go. -/
structure QueryStringQuery where
  Query : String
  DefaultField : String := ""
  Boost : Rat := 0
deriving DecidableEq

/-- Type `PrefixQuery` of types.go. -/
structure PrefixQuery where
  Field : String
  Value : String
  Boost : Rat := 0
deriving DecidableEq

/-- Type `WildcardQuery` of types.go. -/
structure WildcardQuery where
  Field : String
  Value : String
  Boost : Rat := 0
deriving DecidableEq

/-- Type `NumericRangeQuery` of types.go; `Min`/`Max` are `*float64`. -/
structure NumericRangeQuery where
  Field : String
  Min : Option Rat := none
  Max : Option Rat := none
  InclusiveMin : Bool := false
  InclusiveMax : Bool := false
  Boost : Rat := 0
deriving DecidableEq

/-- Type `DateRangeQuery` of types.go; empty `Start`/`End` strings mean unset. -/
structure DateRangeQuery where
  Field : String
  Start : String := ""
  End : String := ""
  InclusiveStart : Bool := false
  InclusiveEnd : Bool := false
  Boost : Rat := 0
deriving DecidableEq

/-- Type `SortOption` of types.go. -/
structure SortOption where
  Field : String
  Desc : Bool := false
deriving DecidableEq

/-- Type `Highlight` of types.go. -/
structure Highlight where
  Style : String := ""
  Fields : List String := []
deriving DecidableEq

/-- Type `SearchOptions` of types.go; `SortL` is the Go field `Sort`
(`Sort` is a Lean keyword). -/
structure SearchOptions where
  Size : Int := 0
  From : Int := 0
  Explain : Bool := false
  Fields : List String := []
  SortL : List SortOption := []
  Highlight : Option Highlight := none
deriving DecidableEq

/-
`QueryDSL` of types.go is a struct of ten nil-able pointer fields, one per
clause kind, and `BooleanQuery` recursively holds `[]QueryDSL` children.
To obtain a structurally recursive Lean definition the recursive knot uses
dedicated mutual types: `OptBoolQ` models the Go pointer `*BooleanQuery`
(isomorphic to `Option BooleanQuery`) and `QList` models `[]QueryDSL`
(isomorphic to `List QueryDSL`); all non-recursive fields use `Option`.
Constructor-argument order is the field order of types.go.
-/
mutual
inductive QueryDSL where
  | mk (matchC : Option MatchQuery) (matchPhraseC : Option MatchPhraseQuery)
       (vectorC : Option VectorQuery) (boolC : OptBoolQ)
       (termC : Option TermQuery) (queryStringC : Option QueryStringQuery)
       (prefixC : Option PrefixQuery) (wildcardC : Option WildcardQuery)
       (numericRangeC : Option NumericRangeQuery) (dateRangeC : Option DateRangeQuery) : QueryDSL

inductive OptBoolQ where
  | none : OptBoolQ
  | some (b : BooleanQuery) : OptBoolQ

inductive BooleanQuery where
  | mk (Must : QList) (Should : QList) (MustNot : QList)
       (MinimumShouldMatch : Int) (Boost : Rat) : BooleanQuery

inductive QList where
  | nil : QList
  | cons (q : QueryDSL) (rest : QList) : QList
end

/-- The `List QueryDSL` denoted by a `QList`. -/
def QList.toList : QList → List QueryDSL
  | .nil => []
  | .cons q rest => q :: rest.toList

/-- Build a `QList` from a `List QueryDSL`. -/
def QList.ofList : List QueryDSL → QList
  | [] => .nil
  | q :: rest => .cons q (QList.ofList rest)

/-- A `QueryDSL` value with no populated clause variant. -/
def QueryDSL.empty : QueryDSL :=
  .mk none none none .none none none none none none none

/-- A `QueryDSL` with only the `match` variant populated. -/
def matchDSL (m : MatchQuery) : QueryDSL :=
  .mk (some m) none none .none none none none none none none

/-- A `QueryDSL` with only the `match_phrase` variant populated. -/
def matchPhraseDSL (m : MatchPhraseQuery) : QueryDSL :=
  .mk none (some m) none .none none none none none none none

/-- A `QueryDSL` with only the `vector` variant populated. -/
def vectorDSL (v : VectorQuery) : QueryDSL :=
  .mk none none (some v) .none none none none none none none

/-- A `QueryDSL` with only the `bool` variant populated. -/
def boolDSL (b : BooleanQuery) : QueryDSL :=
  .mk none none none (.some b) none none none none none none

/-- A `QueryDSL` with only the `term` variant populated. -/
def termDSL (t : TermQuery) : QueryDSL :=
  .mk none none none .none (some t) none none none none none

/-- A `QueryDSL` with only the `query_string` variant populated. -/
def queryStringDSL (q : QueryStringQuery) : QueryDSL :=
  .mk none none none .none none (some q) none none none none

/-- A `QueryDSL` with only the `prefix` variant populated. -/
def prefixDSL (p : PrefixQuery) : QueryDSL :=
  .mk none none none .none none none (some p) none none none

/-- A `QueryDSL` with only the `wildcard` variant populated. -/
def wildcardDSL (w : WildcardQuery) : QueryDSL :=
  .mk none none none .none none none none (some w) none none

/-- A `QueryDSL` with only the `numeric_range` variant populated. -/
def numericRangeDSL (n : NumericRangeQuery) : QueryDSL :=
  .mk none none none .none none none none none (some n) none

/-- A `QueryDSL` with only the `date_range` variant populated. -/
def dateRangeDSL (d : DateRangeQuery) : QueryDSL :=
  .mk none none none .none none none none none none (some d)

/-! ## Engine interface model

The search engine (bleve proper) is outside the sources under review; the
definitions below carry a doc comment starting `Modelled from the spec:`
and follow the external-interface description of the spec. -/

/-- Modelled from the spec: the engine AND/OR mode that the match operator field is mapped to (`MatchQueryOperatorOr` / `MatchQueryOperatorAnd`);
`none` in `BleveMatchQuery.operator` means the setter was never called and
the engine default applies. -/
inductive MatchQueryOperator where
  | opOr : MatchQueryOperator
  | opAnd : MatchQueryOperator
deriving DecidableEq

/-- Modelled from the spec: the engine-native match query; fields record
the constructor argument and what the setters (`SetField`, `SetBoost`,
`SetOperator`, `SetFuzziness`, `SetPrefix`) were called with. `none` boost
and `none` operator mean the engine defaults. -/
structure BleveMatchQuery where
  matchText : String
  field : String := ""
  boost : Option Rat := none
  operator : Option MatchQueryOperator := none
  fuzziness : Int := 0
  prefixLen : Int := 0
deriving DecidableEq

/-- Modelled from the spec: the engine-native query object produced by the
engine query constructors of the external-interface section of the spec; a
`none` boost means `SetBoost` was never called (engine default). -/
inductive BleveQuery where
  | matchQ (q : BleveMatchQuery)
  | matchPhraseQ (field phrase : String) (boost : Option Rat)
  | matchAllQ
  | booleanQ (must should mustNot : List BleveQuery)
             (minShould : Option Int) (boost : Option Rat)
  | termQ (field term : String) (boost : Option Rat)
  | queryStringQ (q : String) (boost : Option Rat)
  | prefixQ (field val : String) (boost : Option Rat)
  | wildcardQ (field val : String) (boost : Option Rat)
  | numericRangeQ (field : String) (min max : Option Rat) (boost : Option Rat)
  | dateRangeQ (field : String) (startT endT : Int) (boost : Option Rat)

/-- Modelled from the spec: one k-NN augmentation attached to an engine
request by `AddKNN(field, vector, k, boost)`. -/
structure KNNRequest where
  field : String
  vector : List Rat
  k : Int
  boost : Rat

/-- Modelled from the spec: the engine highlight request created by
`bleve.NewHighlight()`; no style is set at creation. -/
structure BleveHighlight where
  Style : Option String := none
  Fields : List String := []

/-- Modelled from the spec: the engine-native search request; `SortL` is
the engine field `Sort` (`Sort` is a Lean keyword), the accumulated
composite sort key. -/
structure BleveSearchRequest where
  Query : BleveQuery
  Size : Int := 10
  From : Int := 0
  Explain : Bool := false
  Fields : List String := []
  Highlight : Option BleveHighlight := none
  SortL : List String := []
  KNN : List KNNRequest := []

/-- Modelled from the spec: `bleve.NewSearchRequest(q)` builds a request
executing `q` with engine-default size, offset and options. -/
def NewSearchRequest (q : BleveQuery) : BleveSearchRequest :=
  { Query := q }

/-- Modelled from the spec: `SearchRequest.AddKNN(field, vector, k, boost)`
is a k-NN augmentation API on the request — it records a side query on the
request itself and leaves the base `Query` of the request unchanged. -/
def AddKNN (r : BleveSearchRequest) (field : String) (vector : List Rat)
    (k : Int) (boost : Rat) : BleveSearchRequest :=
  { r with KNN := r.KNN ++ [{ field := field, vector := vector, k := k, boost := boost }] }

/-- Modelled from the spec: `bleve.NewHighlight()` creates a highlight
request with no style and no fields. -/
def NewHighlight : BleveHighlight := {}

/-- Modelled from the spec: `SearchRequest.SortBy(order)` applies sort-key
strings to the request; per the options-applier contract of the spec, entries
applied one after another form a composite sort key in the given order
(primary, secondary, ...), so applied keys accumulate. -/
def SortBy (r : BleveSearchRequest) (order : List String) : BleveSearchRequest :=
  { r with SortL := r.SortL ++ order }

/-! ## Compiler result model -/

/-- Compilation errors of `BuildBleveQuery`, one constructor per
`fmt.Errorf` site, carrying the formatted-in data. `embeddingFailed`
wraps (`%w`) the error of the embedding client. -/
inductive BuildErr where
  | invalidOperator (op : String)
  | negativeFuzziness (n : Int)
  | negativePrefixLength (n : Int)
  | embeddingFailed (cause : String)
  | textOrVectorRequired
  | invalidStartDate (s : String)
  | invalidEndDate (s : String)
  | noValidQueryType
deriving DecidableEq

/-- Result of running a piece of the compiler: a value, a returned Go
`error`, or a Go runtime panic from dereferencing a nil pointer. -/
inductive Outcome (α : Type) where
  | ok (a : α)
  | fail (e : BuildErr)
  | derefNil
deriving DecidableEq

/-- Sequencing of compiler steps: an error or panic short-circuits. -/
def Outcome.bind {α β : Type} : Outcome α → (α → Outcome β) → Outcome β
  | .ok a, f => f a
  | .fail e, _ => .fail e
  | .derefNil, _ => .derefNil

/-- The embedding client: `GenerateEmbedding(text)` returns a vector or an
error. -/
abbrev EmbedFn := String → Except String (List Rat)

/-- RFC-3339 parsing (`time.Parse time.RFC3339`): `some t` when the string
is a valid timestamp denoting instant `t`, `none` on a parse error. -/
abbrev ParseFn := String → Option Int

/-- A compiler run: the texts sent to the embedding client, in call order,
paired with the outcome. -/
abbrev BuildRes (α : Type) := List String × Outcome α

/-! ## BuildBleveQuery -/

/-- Go `if boost != 0 { SetBoost(boost) }`: boost zero means the setter is
not called and the engine default stays. -/
def boostOpt (b : Rat) : Option Rat := if b = 0 then none else some b

/-- Go `strings.ToLower`, lowering character by character; on the ASCII
tokens this code compares against ("and"/"or") it agrees with the Unicode
case mapping used by Go. -/
def toLowerGo (s : String) : String := String.mk (s.data.map Char.toLower)

/-- The Match branch of `BuildBleveQuery`: constructor and setters, then
operator mapping (on the lowercased string), then fuzziness, then prefix
length, failing at the first invalid field. -/
def buildMatch (m : MatchQuery) : Outcome BleveQuery :=
  let q : BleveMatchQuery :=
    { matchText := m.Value, field := m.Field, boost := boostOpt m.Boost }
  (if m.Operator = "" then .ok q
   else if toLowerGo m.Operator = "or" then .ok { q with operator := some .opOr }
   else if toLowerGo m.Operator = "and" then .ok { q with operator := some .opAnd }
   else .fail (.invalidOperator m.Operator) : Outcome BleveMatchQuery).bind fun q =>
  (if m.Fuzziness = 0 then .ok q
   else if m.Fuzziness < 0 then .fail (.negativeFuzziness m.Fuzziness)
   else .ok { q with fuzziness := m.Fuzziness } : Outcome BleveMatchQuery).bind fun q =>
  (if m.PrefixLength = 0 then .ok (.matchQ q)
   else if m.PrefixLength < 0 then .fail (.negativePrefixLength m.PrefixLength)
   else .ok (.matchQ { q with prefixLen := m.PrefixLength }))

/-- The MatchPhrase branch of `BuildBleveQuery` (`Slop` is not used by the
source). -/
def buildMatchPhrase (m : MatchPhraseQuery) : Outcome BleveQuery :=
  .ok (.matchPhraseQ m.Field m.Value (boostOpt m.Boost))

/-- The Vector branch of `BuildBleveQuery`: a non-empty `Text` wins and is
sent to the embedding client (an error is wrapped), else a non-nil
`Vector` is used, else an error; the branch then builds a fresh local
search request around a match-all query, sets its size, attaches the k-NN
side query to it, and returns the base `Query` of that request. -/
def buildVector (embed : EmbedFn) (v : VectorQuery) : BuildRes BleveQuery :=
  if v.Text ≠ "" then
    match embed v.Text with
    | .error cause => ([v.Text], .fail (.embeddingFailed cause))
    | .ok queryVector =>
      let sr := NewSearchRequest .matchAllQ
      let sr := { sr with Size := v.K }
      let sr := AddKNN sr v.Field queryVector v.K v.Boost
      ([v.Text], .ok sr.Query)
  else
    match v.Vector with
    | some queryVector =>
      let sr := NewSearchRequest .matchAllQ
      let sr := { sr with Size := v.K }
      let sr := AddKNN sr v.Field queryVector v.K v.Boost
      ([], .ok sr.Query)
    | none => ([], .fail .textOrVectorRequired)

/-- The Term branch of `BuildBleveQuery`. -/
def buildTerm (t : TermQuery) : Outcome BleveQuery :=
  .ok (.termQ t.Field t.Value (boostOpt t.Boost))

/-- The QueryString branch of `BuildBleveQuery` (`DefaultField` is not
used by the source). -/
def buildQueryString (q : QueryStringQuery) : Outcome BleveQuery :=
  .ok (.queryStringQ q.Query (boostOpt q.Boost))

/-- The Prefix branch of `BuildBleveQuery`. -/
def buildPrefixQ (p : PrefixQuery) : Outcome BleveQuery :=
  .ok (.prefixQ p.Field p.Value (boostOpt p.Boost))

/-- The Wildcard branch of `BuildBleveQuery`. -/
def buildWildcard (w : WildcardQuery) : Outcome BleveQuery :=
  .ok (.wildcardQ w.Field w.Value (boostOpt w.Boost))

/-- The NumericRange branch of `BuildBleveQuery`: the `Min`/`Max` pointers
are passed through to the engine constructor unchecked (inclusivity flags
are not used by the source). -/
def buildNumericRange (n : NumericRangeQuery) : Outcome BleveQuery :=
  .ok (.numericRangeQ n.Field n.Min n.Max (boostOpt n.Boost))

/-- The DateRange branch of `BuildBleveQuery`: each non-empty bound is
parsed (a parse error is returned), then the source dereferences both
`*startTime` and `*endTime` unconditionally — if either bound was never
set, its pointer is nil and the dereference is a runtime panic
(`Outcome.derefNil`). -/
def buildDateRange (parse : ParseFn) (d : DateRangeQuery) : Outcome BleveQuery :=
  (if d.Start = "" then .ok none
   else match parse d.Start with
     | some t => .ok (some t)
     | none => .fail (.invalidStartDate d.Start) : Outcome (Option Int)).bind fun startTime =>
  (if d.End = "" then .ok none
   else match parse d.End with
     | some t => .ok (some t)
     | none => .fail (.invalidEndDate d.End) : Outcome (Option Int)).bind fun endTime =>
  match startTime, endTime with
  | some s, some e => .ok (.dateRangeQ d.Field s e (boostOpt d.Boost))
  | _, _ => .derefNil

mutual
/-- Function `BuildBleveQuery` of the query package: scans the ten
pointer fields of the clause struct in declaration order and compiles the first populated one;
with none populated it fails. The Bool branch compiles `Must`, `Should`,
`MustNot` in order via `buildClauses` and then applies
`minimum_should_match` (if positive) and boost. -/
def BuildBleveQuery (embed : EmbedFn) (parse : ParseFn) : QueryDSL → BuildRes BleveQuery
  | .mk matchC matchPhraseC vectorC boolC termC queryStringC
       prefixC wildcardC numericRangeC dateRangeC =>
    match matchC with
    | some m => ([], buildMatch m)
    | none =>
    match matchPhraseC with
    | some m => ([], buildMatchPhrase m)
    | none =>
    match vectorC with
    | some v => buildVector embed v
    | none =>
    match boolC with
    | .some (.mk must should mustNot msm boost) =>
      (match buildClauses embed parse must with
      | (log1, .ok l1) =>
        (match buildClauses embed parse should with
        | (log2, .ok l2) =>
          (match buildClauses embed parse mustNot with
          | (log3, .ok l3) =>
            (log1 ++ log2 ++ log3,
             .ok (.booleanQ l1 l2 l3 (if msm > 0 then some msm else none) (boostOpt boost)))
          | (log3, .fail e) => (log1 ++ log2 ++ log3, .fail e)
          | (log3, .derefNil) => (log1 ++ log2 ++ log3, .derefNil))
        | (log2, .fail e) => (log1 ++ log2, .fail e)
        | (log2, .derefNil) => (log1 ++ log2, .derefNil))
      | (log1, .fail e) => (log1, .fail e)
      | (log1, .derefNil) => (log1, .derefNil))
    | .none =>
    match termC with
    | some t => ([], buildTerm t)
    | none =>
    match queryStringC with
    | some q => ([], buildQueryString q)
    | none =>
    match prefixC with
    | some p => ([], buildPrefixQ p)
    | none =>
    match wildcardC with
    | some w => ([], buildWildcard w)
    | none =>
    match numericRangeC with
    | some n => ([], buildNumericRange n)
    | none =>
    match dateRangeC with
    | some d => ([], buildDateRange parse d)
    | none => ([], .fail .noValidQueryType)

/-- One `for _, child := range list` loop of the Bool branch: children are
compiled left to right; the first error (or panic) is returned at once and
the remaining children are never compiled. -/
def buildClauses (embed : EmbedFn) (parse : ParseFn) : QList → BuildRes (List BleveQuery)
  | .nil => ([], .ok [])
  | .cons q rest =>
    match BuildBleveQuery embed parse q with
    | (log, .ok bq) =>
      (match buildClauses embed parse rest with
      | (log2, .ok l) => (log ++ log2, .ok (bq :: l))
      | (log2, .fail e) => (log ++ log2, .fail e)
      | (log2, .derefNil) => (log ++ log2, .derefNil))
    | (log, .fail e) => (log, .fail e)
    | (log, .derefNil) => (log, .derefNil)
end

/-! ## ApplySearchOptions -/

/-- The per-entry body of the sort loop of `ApplySearchOptions`: the
sort-key string a `SortOption` is turned into — `_score` always becomes
the descending-relevance key, otherwise a `-` prefix encodes descending. -/
def sortToken (s : SortOption) : String :=
  if s.Field = "_score" then "-_score"
  else if s.Desc then "-" ++ s.Field
  else s.Field

/-- The `for _, sort := range options.Sort` loop of `ApplySearchOptions`:
one `SortBy` call per entry, in order. -/
def applySortLoop (r : BleveSearchRequest) : List SortOption → BleveSearchRequest
  | [] => r
  | s :: rest =>
    if s.Field = "_score" then applySortLoop (SortBy r ["-_score"]) rest
    else if s.Desc then applySortLoop (SortBy r ["-" ++ s.Field]) rest
    else applySortLoop (SortBy r [s.Field]) rest

/-- Function `ApplySearchOptions` of the query package: a nil options pointer is a
no-op; otherwise size/from only when positive, fields only when non-empty,
explain passthrough, highlight replaced by a fresh engine highlight whose
field list is copied verbatim (the DSL `Style` is never read), then the
sort loop. Modelled as a pure transform on the request. -/
def ApplySearchOptions (r : BleveSearchRequest) (options : Option SearchOptions) :
    BleveSearchRequest :=
  match options with
  | none => r
  | some o =>
    let r := if o.Size > 0 then { r with Size := o.Size } else r
    let r := if o.From > 0 then { r with From := o.From } else r
    let r := if o.Fields.length > 0 then { r with Fields := o.Fields } else r
    let r := if o.Explain then { r with Explain := true } else r
    let r := match o.Highlight with
      | some h => { r with Highlight := some { NewHighlight with Fields := h.Fields } }
      | none => r
    applySortLoop r o.SortL

/-! ## Helper definitions for the claims -/

/-- Whether the `bool` pointer field is populated. -/
def OptBoolQ.isPop : OptBoolQ → Bool
  | .none => false
  | .some _ => true

/-- How many of the ten clause-variant fields of a `QueryDSL` are
populated. -/
def countPopulated : QueryDSL → Nat
  | .mk matchC matchPhraseC vectorC boolC termC queryStringC
       prefixC wildcardC numericRangeC dateRangeC =>
    (if matchC.isSome then 1 else 0) + (if matchPhraseC.isSome then 1 else 0) +
    (if vectorC.isSome then 1 else 0) + (if boolC.isPop then 1 else 0) +
    (if termC.isSome then 1 else 0) + (if queryStringC.isSome then 1 else 0) +
    (if prefixC.isSome then 1 else 0) + (if wildcardC.isSome then 1 else 0) +
    (if numericRangeC.isSome then 1 else 0) + (if dateRangeC.isSome then 1 else 0)

/-- The projection keeping only the first populated variant in the scan
order of `BuildBleveQuery` (the field order of types.go). -/
def firstPopulated : QueryDSL → QueryDSL
  | .mk matchC matchPhraseC vectorC boolC termC queryStringC
       prefixC wildcardC numericRangeC dateRangeC =>
    match matchC with
    | some m => matchDSL m
    | none =>
    match matchPhraseC with
    | some m => matchPhraseDSL m
    | none =>
    match vectorC with
    | some v => vectorDSL v
    | none =>
    match boolC with
    | .some b => boolDSL b
    | .none =>
    match termC with
    | some t => termDSL t
    | none =>
    match queryStringC with
    | some q => queryStringDSL q
    | none =>
    match prefixC with
    | some p => prefixDSL p
    | none =>
    match wildcardC with
    | some w => wildcardDSL w
    | none =>
    match numericRangeC with
    | some n => numericRangeDSL n
    | none =>
    match dateRangeC with
    | some d => dateRangeDSL d
    | none => QueryDSL.empty

/-- An embedding client that is never consulted by the inputs it is used
with. -/
def stubEmbed : EmbedFn := fun _ => .error "unreachable"

/-- A timestamp parser that rejects every string; used where parsing is
never reached. -/
def stubParse : ParseFn := fun _ => none

/-- A timestamp parser that accepts every string (mapping it to instant
`t`); used to model inputs whose date strings are valid RFC-3339. -/
def allValidParse (t : Int) : ParseFn := fun _ => some t

/-- The embedding-call log of compiling one clause. -/
def buildLog (embed : EmbedFn) (parse : ParseFn) (q : QueryDSL) : List String :=
  (BuildBleveQuery embed parse q).1

/-- The outcome of compiling one clause. -/
def buildOut (embed : EmbedFn) (parse : ParseFn) (q : QueryDSL) : Outcome BleveQuery :=
  (BuildBleveQuery embed parse q).2

/-- The concatenated embedding-call logs of compiling the clauses of a
list in order. -/
def logsOf (embed : EmbedFn) (parse : ParseFn) (qs : List QueryDSL) : List String :=
  (qs.map (buildLog embed parse)).flatten

/-! ## Supporting lemmas -/

/-- Lemma: `applySortLoop` appends one `sortToken` per entry, in entry order. -/
theorem applySortLoop_sortL (l : List SortOption) :
    ∀ r : BleveSearchRequest, (applySortLoop r l).SortL = r.SortL ++ l.map sortToken := by
  induction l with
  | nil => intro r; simp [applySortLoop]
  | cons s rest ih =>
    intro r
    by_cases h1 : s.Field = "_score"
    · simp [applySortLoop, h1, ih, SortBy, sortToken]
    · by_cases h2 : s.Desc
      · simp [applySortLoop, h1, h2, ih, SortBy, sortToken]
      · simp [applySortLoop, h1, h2, ih, SortBy, sortToken]

/-- Lemma: `applySortLoop` touches only the sort key, never the highlight. -/
theorem applySortLoop_highlight (l : List SortOption) :
    ∀ r : BleveSearchRequest, (applySortLoop r l).Highlight = r.Highlight := by
  induction l with
  | nil => intro r; rfl
  | cons s rest ih =>
    intro r
    by_cases h1 : s.Field = "_score"
    · simp [applySortLoop, h1, ih, SortBy]
    · by_cases h2 : s.Desc
      · simp [applySortLoop, h1, h2, ih, SortBy]
      · simp [applySortLoop, h1, h2, ih, SortBy]

/-- Unfolding of the Bool branch of `BuildBleveQuery`. -/
theorem build_bool_eq (e : EmbedFn) (p : ParseFn) (M S N : QList) (msm : Int) (boost : Rat) :
    BuildBleveQuery e p (boolDSL (.mk M S N msm boost)) =
      (match buildClauses e p M with
      | (log1, .ok l1) =>
        (match buildClauses e p S with
        | (log2, .ok l2) =>
          (match buildClauses e p N with
          | (log3, .ok l3) =>
            (log1 ++ log2 ++ log3,
             .ok (.booleanQ l1 l2 l3 (if msm > 0 then some msm else none) (boostOpt boost)))
          | (log3, .fail er) => (log1 ++ log2 ++ log3, .fail er)
          | (log3, .derefNil) => (log1 ++ log2 ++ log3, .derefNil))
        | (log2, .fail er) => (log1 ++ log2, .fail er)
        | (log2, .derefNil) => (log1 ++ log2, .derefNil))
      | (log1, .fail er) => (log1, .fail er)
      | (log1, .derefNil) => (log1, .derefNil)) := rfl

/-- Unfolding of one step of `buildClauses`. -/
theorem buildClauses_cons (e : EmbedFn) (p : ParseFn) (q : QueryDSL) (rest : QList) :
    buildClauses e p (.cons q rest) =
      (match BuildBleveQuery e p q with
      | (log, .ok bq) =>
        (match buildClauses e p rest with
        | (log2, .ok l) => (log ++ log2, .ok (bq :: l))
        | (log2, .fail er) => (log ++ log2, .fail er)
        | (log2, .derefNil) => (log ++ log2, .derefNil))
      | (log, .fail er) => (log, .fail er)
      | (log, .derefNil) => (log, .derefNil)) := rfl

/-- When every clause of the list compiles, `buildClauses` concatenates
the per-clause embedding logs in order and returns the per-clause results
in order. -/
theorem buildClauses_all_ok (e : EmbedFn) (p : ParseFn) :
    ∀ qs : List QueryDSL, (∀ q ∈ qs, ∃ bq, buildOut e p q = .ok bq) →
      ∃ l, buildClauses e p (QList.ofList qs) = (logsOf e p qs, .ok l) ∧
        List.Forall₂ (fun q bq => buildOut e p q = .ok bq) qs l := by
  intro qs
  induction qs with
  | nil => intro _; exact ⟨[], rfl, .nil⟩
  | cons q rest ih =>
    intro h
    obtain ⟨bq, hbq⟩ := h q (by simp)
    obtain ⟨l, hl, hf⟩ := ih (fun q' hq' => h q' (by simp [hq']))
    refine ⟨bq :: l, ?_, .cons hbq hf⟩
    have hq' : BuildBleveQuery e p q = (buildLog e p q, .ok bq) := by
      rw [← hbq]; rfl
    rw [QList.ofList, buildClauses_cons, hq', hl]
    simp [logsOf]

/-- When an earlier clause of the list fails, later clauses are never
compiled: the log stops at the failing clause and its error is returned. -/
theorem buildClauses_first_fail (e : EmbedFn) (p : ParseFn) (c : QueryDSL)
    (post : List QueryDSL) (er : BuildErr) (hc : buildOut e p c = .fail er) :
    ∀ pre : List QueryDSL, (∀ q ∈ pre, ∃ bq, buildOut e p q = .ok bq) →
      buildClauses e p (QList.ofList (pre ++ c :: post)) =
        (logsOf e p pre ++ buildLog e p c, .fail er) := by
  intro pre
  induction pre with
  | nil =>
    intro _
    have hc' : BuildBleveQuery e p c = (buildLog e p c, .fail er) := by
      rw [← hc]; rfl
    rw [List.nil_append, QList.ofList, buildClauses_cons, hc']
    simp [logsOf]
  | cons q rest ih =>
    intro h
    obtain ⟨bq, hbq⟩ := h q (by simp)
    have hq' : BuildBleveQuery e p q = (buildLog e p q, .ok bq) := by
      rw [← hbq]; rfl
    rw [List.cons_append, QList.ofList, buildClauses_cons, hq',
        ih (fun q' hq' => h q' (by simp [hq']))]
    simp [logsOf]

/-- C8: compiling a Boolean clause compiles the children of `must`, then
`should`, then `must_not`, each list in its given order; when all children
compile, the result is a boolean query over the per-child results in
order, with the embedding-call log concatenated in that order; the first
failing child (or deeper descendant, whose error is propagated unwrapped)
aborts the whole compilation, which returns that error, with no query and
with no remaining child compiled (fail-fast). -/
theorem boolean_compiles_in_order_and_fails_fast (e : EmbedFn) (p : ParseFn)
    (must should mustNot : List QueryDSL) (msm : Int) (boost : Rat) :
    ((∀ q ∈ must ++ should ++ mustNot, ∃ bq, buildOut e p q = .ok bq) →
      ∃ l1 l2 l3,
        List.Forall₂ (fun q bq => buildOut e p q = .ok bq) must l1 ∧
        List.Forall₂ (fun q bq => buildOut e p q = .ok bq) should l2 ∧
        List.Forall₂ (fun q bq => buildOut e p q = .ok bq) mustNot l3 ∧
        BuildBleveQuery e p
            (boolDSL (.mk (.ofList must) (.ofList should) (.ofList mustNot) msm boost)) =
          (logsOf e p must ++ logsOf e p should ++ logsOf e p mustNot,
           .ok (.booleanQ l1 l2 l3 (if msm > 0 then some msm else none) (boostOpt boost)))) ∧
    (∀ (pre : List QueryDSL) (c : QueryDSL) (post : List QueryDSL) (er : BuildErr),
      must = pre ++ c :: post →
      (∀ q ∈ pre, ∃ bq, buildOut e p q = .ok bq) →
      buildOut e p c = .fail er →
      BuildBleveQuery e p
          (boolDSL (.mk (.ofList must) (.ofList should) (.ofList mustNot) msm boost)) =
        (logsOf e p pre ++ buildLog e p c, .fail er)) ∧
    (∀ (pre : List QueryDSL) (c : QueryDSL) (post : List QueryDSL) (er : BuildErr),
      (∀ q ∈ must, ∃ bq, buildOut e p q = .ok bq) →
      should = pre ++ c :: post →
      (∀ q ∈ pre, ∃ bq, buildOut e p q = .ok bq) →
      buildOut e p c = .fail er →
      BuildBleveQuery e p
          (boolDSL (.mk (.ofList must) (.ofList should) (.ofList mustNot) msm boost)) =
        (logsOf e p must ++ (logsOf e p pre ++ buildLog e p c), .fail er)) ∧
    (∀ (pre : List QueryDSL) (c : QueryDSL) (post : List QueryDSL) (er : BuildErr),
      (∀ q ∈ must, ∃ bq, buildOut e p q = .ok bq) →
      (∀ q ∈ should, ∃ bq, buildOut e p q = .ok bq) →
      mustNot = pre ++ c :: post →
      (∀ q ∈ pre, ∃ bq, buildOut e p q = .ok bq) →
      buildOut e p c = .fail er →
      BuildBleveQuery e p
          (boolDSL (.mk (.ofList must) (.ofList should) (.ofList mustNot) msm boost)) =
        (logsOf e p must ++ logsOf e p should ++ (logsOf e p pre ++ buildLog e p c),
         .fail er)) := by
  refine ⟨?_, ?_, ?_, ?_⟩
  · intro h
    obtain ⟨l1, h1, hf1⟩ := buildClauses_all_ok e p must
      (fun q hq => h q (by simp [hq]))
    obtain ⟨l2, h2, hf2⟩ := buildClauses_all_ok e p should
      (fun q hq => h q (by simp [hq]))
    obtain ⟨l3, h3, hf3⟩ := buildClauses_all_ok e p mustNot
      (fun q hq => h q (by simp [hq]))
    refine ⟨l1, l2, l3, hf1, hf2, hf3, ?_⟩
    rw [build_bool_eq, h1, h2, h3]
  · intro pre c post er hsplit hpre hc
    subst hsplit
    rw [build_bool_eq, buildClauses_first_fail e p c post er hc pre hpre]
  · intro pre c post er hmust hsplit hpre hc
    subst hsplit
    obtain ⟨l1, h1, _⟩ := buildClauses_all_ok e p must hmust
    rw [build_bool_eq, h1, buildClauses_first_fail e p c post er hc pre hpre]
  · intro pre c post er hmust hshould hsplit hpre hc
    subst hsplit
    obtain ⟨l1, h1, _⟩ := buildClauses_all_ok e p must hmust
    obtain ⟨l2, h2, _⟩ := buildClauses_all_ok e p should hshould
    rw [build_bool_eq, h1, h2, buildClauses_first_fail e p c post er hc pre hpre]

/-- C2 (amended): a clause with no populated variant fails with the
no-valid-query-type error, and in general compilation only ever looks at
the first populated variant in field-declaration scan order. -/
theorem compile_scans_first_populated (e : EmbedFn) (p : ParseFn) (q : QueryDSL) :
    (countPopulated q = 0 → BuildBleveQuery e p q = ([], .fail .noValidQueryType)) ∧
    BuildBleveQuery e p q = BuildBleveQuery e p (firstPopulated q) := by
  obtain ⟨m, mp, v, b, t, qs, pf, w, nr, dr⟩ := q
  cases m with
  | some x => exact ⟨fun h => by simp [countPopulated] at h, rfl⟩
  | none =>
  cases mp with
  | some x => exact ⟨fun h => by simp [countPopulated] at h, rfl⟩
  | none =>
  cases v with
  | some x => exact ⟨fun h => by simp [countPopulated] at h, rfl⟩
  | none =>
  cases b with
  | some bb =>
    cases bb with
    | mk M S N msm bo =>
      exact ⟨fun h => by simp [countPopulated, OptBoolQ.isPop] at h, rfl⟩
  | none =>
  cases t with
  | some x => exact ⟨fun h => by simp [countPopulated] at h, rfl⟩
  | none =>
  cases qs with
  | some x => exact ⟨fun h => by simp [countPopulated] at h, rfl⟩
  | none =>
  cases pf with
  | some x => exact ⟨fun h => by simp [countPopulated] at h, rfl⟩
  | none =>
  cases w with
  | some x => exact ⟨fun h => by simp [countPopulated] at h, rfl⟩
  | none =>
  cases nr with
  | some x => exact ⟨fun h => by simp [countPopulated] at h, rfl⟩
  | none =>
  cases dr with
  | some x => exact ⟨fun h => by simp [countPopulated] at h, rfl⟩
  | none => exact ⟨fun _ => rfl, rfl⟩

/-- A clause populating both `match` and `term`. -/
def twoPopulatedClause : QueryDSL :=
  .mk (some { Field := "content", Value := "fox" }) none none .none
    (some { Field := "status", Value := "draft" }) none none none none none

/-- C2 counterexample: a clause with two populated variants does not fail
with a validation error — it compiles the `match` variant. -/
theorem two_populated_compiles_first : countPopulated twoPopulatedClause = 2 ∧
    BuildBleveQuery stubEmbed stubParse twoPopulatedClause
      = ([], .ok (.matchQ { matchText := "fox", field := "content" })) :=
  ⟨rfl, rfl⟩

/-- C2 witness: the amended zero-populated case at the empty clause. -/
theorem compile_scans_first_populated_witness :
    BuildBleveQuery stubEmbed stubParse QueryDSL.empty
      = ([], .fail .noValidQueryType) :=
  (compile_scans_first_populated stubEmbed stubParse QueryDSL.empty).1 rfl

/-- C6 (amended): the match operator is lowercased before comparison — a
non-empty operator whose lowercase form is neither the literal "and" nor
"or" fails with the invalid-operator error (carrying the original
spelling), while any spelling lowercasing to "and" / "or" sets the
corresponding engine mode and succeeds when the remaining parameters are
valid. -/
theorem match_operator_lowercased (e : EmbedFn) (p : ParseFn) (m : MatchQuery) :
    (m.Operator ≠ "" → toLowerGo m.Operator ≠ "and" → toLowerGo m.Operator ≠ "or" →
      BuildBleveQuery e p (matchDSL m) = ([], .fail (.invalidOperator m.Operator))) ∧
    (toLowerGo m.Operator = "and" → 0 ≤ m.Fuzziness → 0 ≤ m.PrefixLength →
      ∃ bq : BleveMatchQuery, BuildBleveQuery e p (matchDSL m) = ([], .ok (.matchQ bq)) ∧
        bq.operator = some .opAnd) ∧
    (toLowerGo m.Operator = "or" → 0 ≤ m.Fuzziness → 0 ≤ m.PrefixLength →
      ∃ bq : BleveMatchQuery, BuildBleveQuery e p (matchDSL m) = ([], .ok (.matchQ bq)) ∧
        bq.operator = some .opOr) := by
  have hb : BuildBleveQuery e p (matchDSL m) = ([], buildMatch m) := rfl
  refine ⟨?_, ?_, ?_⟩
  · intro h1 h2 h3
    rw [hb]
    simp [buildMatch, Outcome.bind, h1, h2, h3]
  · intro hop hfz hpl
    have h1 : m.Operator ≠ "" := by
      intro h0
      rw [h0] at hop
      exact absurd hop (by decide)
    have hf' : ¬ m.Fuzziness < 0 := not_lt.mpr hfz
    have hp' : ¬ m.PrefixLength < 0 := not_lt.mpr hpl
    refine ⟨{ matchText := m.Value, field := m.Field, boost := boostOpt m.Boost,
              operator := some .opAnd, fuzziness := m.Fuzziness,
              prefixLen := m.PrefixLength }, ?_, rfl⟩
    rw [hb]
    by_cases hF : m.Fuzziness = 0 <;> by_cases hP : m.PrefixLength = 0 <;>
      simp [buildMatch, Outcome.bind, h1, hop, hF, hP, hf', hp']
  · intro hop hfz hpl
    have h1 : m.Operator ≠ "" := by
      intro h0
      rw [h0] at hop
      exact absurd hop (by decide)
    have hf' : ¬ m.Fuzziness < 0 := not_lt.mpr hfz
    have hp' : ¬ m.PrefixLength < 0 := not_lt.mpr hpl
    refine ⟨{ matchText := m.Value, field := m.Field, boost := boostOpt m.Boost,
              operator := some .opOr, fuzziness := m.Fuzziness,
              prefixLen := m.PrefixLength }, ?_, rfl⟩
    rw [hb]
    by_cases hF : m.Fuzziness = 0 <;> by_cases hP : m.PrefixLength = 0 <;>
      simp [buildMatch, Outcome.bind, h1, hop, hF, hP, hf', hp']

/-- C6 counterexample: the operator "AND" is not one of the literal
strings "and" / "or", yet compilation succeeds and sets the engine AND
mode. -/
theorem uppercase_operator_accepted :
    BuildBleveQuery stubEmbed stubParse
        (matchDSL { Field := "f", Value := "v", Operator := "AND" })
      = ([], .ok (.matchQ { matchText := "v", field := "f",
                            operator := some .opAnd })) := rfl

/-- C6 witness: the amended behaviour at the operators "xor", "And",
"OR". -/
theorem match_operator_lowercased_witness :
    (BuildBleveQuery stubEmbed stubParse
        (matchDSL { Field := "f", Value := "v", Operator := "xor" })
      = ([], .fail (.invalidOperator "xor"))) ∧
    (∃ bq : BleveMatchQuery, BuildBleveQuery stubEmbed stubParse
        (matchDSL { Field := "f", Value := "v", Operator := "And" })
      = ([], .ok (.matchQ bq)) ∧ bq.operator = some .opAnd) ∧
    (∃ bq : BleveMatchQuery, BuildBleveQuery stubEmbed stubParse
        (matchDSL { Field := "f", Value := "v", Operator := "OR" })
      = ([], .ok (.matchQ bq)) ∧ bq.operator = some .opOr) :=
  ⟨(match_operator_lowercased stubEmbed stubParse
      { Field := "f", Value := "v", Operator := "xor" }).1
      (by decide) (by decide) (by decide),
   (match_operator_lowercased stubEmbed stubParse
      { Field := "f", Value := "v", Operator := "And" }).2.1
      (by decide) (by decide) (by decide),
   (match_operator_lowercased stubEmbed stubParse
      { Field := "f", Value := "v", Operator := "OR" }).2.2
      (by decide) (by decide) (by decide)⟩

/-- C5: sort entries are applied to the request in the given order as a
composite sort key, one token per entry (primary, secondary, ...); in
particular `_score` descending followed by `created_at` ascending yields
the composite key relevance-descending, then created_at-ascending. -/
theorem sort_entries_form_composite_key :
    (∀ (r : BleveSearchRequest) (o : SearchOptions),
      (ApplySearchOptions r (some o)).SortL = r.SortL ++ o.SortL.map sortToken) ∧
    (ApplySearchOptions (NewSearchRequest .matchAllQ)
        (some { SortL := [{ Field := "_score", Desc := true },
                          { Field := "created_at", Desc := false }] })).SortL
      = ["-_score", "created_at"] := by
  constructor
  · intro r o
    obtain ⟨sz, fr, ex, fl, srt, hl⟩ := o
    show (applySortLoop _ srt).SortL = _
    rw [applySortLoop_sortL]
    congr 1
    cases hl <;> split_ifs <;> rfl
  · rfl

/-- C10: a present highlight option always enables highlighting with
exactly the given field list and no style on the engine request, and the
DSL highlight style is never read — changing it to any value (valid or
not) leaves the applied request unchanged. -/
theorem highlight_style_never_read (r : BleveSearchRequest) (o : SearchOptions)
    (h : Highlight) (s : String) :
    ApplySearchOptions r (some { o with Highlight := some { h with Style := s } })
      = ApplySearchOptions r (some { o with Highlight := some h }) ∧
    (ApplySearchOptions r (some { o with Highlight := some h })).Highlight
      = some { Style := none, Fields := h.Fields } := by
  constructor
  · rfl
  · show (applySortLoop _ _).Highlight = _
    rw [applySortLoop_highlight]
    rfl

/-- C9: the match clause with field "content", value "fox" and boost 2.0
compiles, with no error, to an engine match query on field "content" with
match text "fox", boost 2.0, and no operator set (the engine default). -/
theorem match_fox_round_trip (e : EmbedFn) (p : ParseFn) :
    BuildBleveQuery e p (matchDSL { Field := "content", Value := "fox", Boost := 2 })
      = ([], .ok (.matchQ { matchText := "fox", field := "content",
                            boost := some 2, operator := none })) := rfl

/-- C1: on the vector clause {field: "embedding", text: "life", model:
"all-minilm", k: 5} the embedding client is called exactly once, with
"life" (the log of the first conjunct), and on client failure compilation fails
with an error wrapping the cause and no query (second conjunct). However
the successful compilation result is the placeholder match-all query: the
k-NN side query is attached to a fresh local request (third conjunct)
which the source then discards, returning only its base
`Query`, so no k-NN data survives compilation. -/
theorem vector_text_builds_discarded_knn (vec : List Rat) (cause : String)
    (p : ParseFn) :
    BuildBleveQuery (fun _ => .ok vec) p
        (vectorDSL { Field := "embedding", Text := "life", Model := "all-minilm", K := 5 })
      = (["life"], .ok .matchAllQ) ∧
    BuildBleveQuery (fun _ => .error cause) p
        (vectorDSL { Field := "embedding", Text := "life", Model := "all-minilm", K := 5 })
      = (["life"], .fail (.embeddingFailed cause)) ∧
    (AddKNN { NewSearchRequest .matchAllQ with Size := 5 } "embedding" vec 5 0).KNN
      = [{ field := "embedding", vector := vec, k := 5, boost := 0 }] ∧
    (AddKNN { NewSearchRequest .matchAllQ with Size := 5 } "embedding" vec 5 0).Query
      = .matchAllQ :=
  ⟨rfl, rfl, rfl, rfl⟩

/-- C3: a date-range clause with exactly one bound set to a valid
RFC-3339 timestamp does not compile to a date-range query — the source
dereferences the nil pointer of the unset bound and panics, for a
start-only clause as well as for an end-only clause. -/
theorem date_range_single_bound_panics (e : EmbedFn) (t : Int) :
    BuildBleveQuery e (allValidParse t)
        (dateRangeDSL { Field := "created_at", Start := "2023-01-01T00:00:00Z" })
      = ([], .derefNil) ∧
    BuildBleveQuery e (allValidParse t)
        (dateRangeDSL { Field := "created_at", End := "2023-12-31T00:00:00Z" })
      = ([], .derefNil) :=
  ⟨rfl, rfl⟩

/-- C4: with both bounds unset there is no empty-range validation error —
a numeric-range clause compiles, without error, to an engine range query
with both endpoints absent, and a date-range clause panics on the nil
dereference of its unset start pointer. -/
theorem empty_ranges_not_validated (e : EmbedFn) (p : ParseFn) :
    BuildBleveQuery e p (numericRangeDSL { Field := "price" })
      = ([], .ok (.numericRangeQ "price" none none none)) ∧
    BuildBleveQuery e p (dateRangeDSL { Field := "created_at" })
      = ([], .derefNil) :=
  ⟨rfl, rfl⟩

/-- C7: providing both text and vector does not fail — the text wins and
the embedding client is consulted (the log shows the call), and a
non-positive k is not validated either: the first conjunct has both
inputs set and k = 0 yet compiles without error. Providing neither input
does fail, with the single either-text-or-vector error (second
conjunct). -/
theorem vector_input_not_validated (vec : List Rat) (p : ParseFn) :
    BuildBleveQuery (fun _ => .ok vec) p
        (vectorDSL { Field := "embedding", Text := "life",
                     Vector := some [1, 2], Model := "all-minilm", K := 0 })
      = (["life"], .ok .matchAllQ) ∧
    BuildBleveQuery stubEmbed p
        (vectorDSL { Field := "embedding", Model := "all-minilm", K := 5 })
      = ([], .fail .textOrVectorRequired) :=
  ⟨rfl, rfl⟩

/-- C8 witness: the order/fail-fast theorem applied at concrete boolean
clauses — an all-compiling clause, a failing must child, a failing should
child after a compiling must child, and a failing must-not child. -/
theorem boolean_fail_fast_witness :
    (BuildBleveQuery stubEmbed stubParse
        (boolDSL (.mk (.ofList [termDSL { Field := "status", Value := "draft" }])
                      (.ofList []) (.ofList []) 0 0))
      = ([], .ok (.booleanQ [.termQ "status" "draft" none] [] [] none none))) ∧
    (BuildBleveQuery stubEmbed stubParse
        (boolDSL (.mk (.ofList [matchDSL { Field := "f", Value := "v", Operator := "xor" }])
                      (.ofList []) (.ofList []) 0 0))
      = ([], .fail (.invalidOperator "xor"))) ∧
    (BuildBleveQuery stubEmbed stubParse
        (boolDSL (.mk (.ofList [termDSL { Field := "status", Value := "draft" }])
                      (.ofList [matchDSL { Field := "f", Value := "v", Operator := "xor" }])
                      (.ofList [termDSL { Field := "x", Value := "y" }]) 0 0))
      = ([], .fail (.invalidOperator "xor"))) ∧
    (BuildBleveQuery stubEmbed stubParse
        (boolDSL (.mk (.ofList []) (.ofList [])
                      (.ofList [matchDSL { Field := "f", Value := "v", Operator := "xor" }]) 0 0))
      = ([], .fail (.invalidOperator "xor"))) := by
  refine ⟨?_, ?_, ?_, ?_⟩
  · obtain ⟨l1, l2, l3, hf1, hf2, hf3, heq⟩ :=
      (boolean_compiles_in_order_and_fails_fast stubEmbed stubParse
        [termDSL { Field := "status", Value := "draft" }] [] [] 0 0).1
        (fun q hq => by
          simp at hq
          subst hq
          exact ⟨.termQ "status" "draft" none, rfl⟩)
    cases hf2
    cases hf3
    rcases hf1 with _ | ⟨hq, hnil⟩
    cases hnil
    have h2 : Outcome.ok (BleveQuery.termQ "status" "draft" none)
        = Outcome.ok _ := hq
    injection h2 with h3
    rw [← h3] at heq
    exact heq
  · exact (boolean_compiles_in_order_and_fails_fast stubEmbed stubParse
      [matchDSL { Field := "f", Value := "v", Operator := "xor" }] [] [] 0 0).2.1
      [] _ [] (.invalidOperator "xor") rfl (fun q hq => absurd hq (by simp)) rfl
  · exact (boolean_compiles_in_order_and_fails_fast stubEmbed stubParse
      [termDSL { Field := "status", Value := "draft" }]
      [matchDSL { Field := "f", Value := "v", Operator := "xor" }]
      [termDSL { Field := "x", Value := "y" }] 0 0).2.2.1
      [] _ [] (.invalidOperator "xor")
      (fun q hq => by
        simp at hq
        subst hq
        exact ⟨.termQ "status" "draft" none, rfl⟩)
      rfl (fun q hq => absurd hq (by simp)) rfl
  · exact (boolean_compiles_in_order_and_fails_fast stubEmbed stubParse
      [] [] [matchDSL { Field := "f", Value := "v", Operator := "xor" }] 0 0).2.2.2
      [] _ [] (.invalidOperator "xor")
      (fun q hq => absurd hq (by simp))
      (fun q hq => absurd hq (by simp))
      rfl (fun q hq => absurd hq (by simp)) rfl
